import Mathlib

/-!
Verification of the Supervisory Control & Monitoring Engine of the
Industrial Mobile Water Skid Simulation backend
(`src/live_smiulation/backend.py`).

The Modbus client (`pymodbus` `ModbusTcpClient`) is modelled as a response
oracle: a structure of functions giving, for each request, either a
successful payload or `none`, which covers both the `isError()` responses
and the exceptions the Python code catches — the two are handled
identically by every caller.  Wall-clock delays (`time.sleep`) carry no
data; they are recorded as `Event.sleep` entries (durations in
milliseconds, so Python's `0.1` becomes `100`) in the trace of externally
visible actions each operation produces, alongside the protocol calls
issued to the client.  The `timestamp` field of the snapshot is wall-clock
time and is omitted from the model.
-/

namespace WaterSkid

/-- Response oracle for the Modbus TCP client consumed by the controller.
`none` stands for an error response or a raised exception. -/
structure ModbusClient where
  write_coil : Nat → Bool → Bool
  read_coils : Nat → Nat → Option (List Bool)
  read_holding_registers : Nat → Nat → Option (List Int)

/-- Externally visible actions of a controller operation: protocol
exchanges issued on the client, and wall-clock sleeps (milliseconds). -/
inductive Event where
  | writeCoilCall (address : Nat) (value : Bool)
  | readCoilsCall (start count : Nat)
  | readRegistersCall (start count : Nat)
  | sleep (ms : Nat)
deriving DecidableEq, Repr

/-- `self.coil_map` from `PLCWebController.__init__`, in source order. -/
def coil_map : List (String × Nat) :=
  [("pump", 0), ("filter", 1), ("uv_reactor", 2), ("start_button", 3),
   ("emergency_button", 4), ("low_level_sensor", 5), ("green_light", 6),
   ("orange_light", 7), ("red_light", 8), ("fault_light", 9),
   ("pt_alert", 10), ("ft_alert", 11), ("turbidity_alert", 12),
   ("pt_inc_sim", 16), ("pt_dec_sim", 17), ("ft_inc_sim", 18),
   ("ft_dec_sim", 19), ("turb_inc_sim", 20), ("turb_dec_sim", 21),
   ("level_inc_sim", 22), ("level_dec_sim", 23)]

/-- `self.register_map` from `PLCWebController.__init__`. -/
def register_map : List (String × Nat) :=
  [("pressure_value", 0), ("flow_value", 1), ("turbidity_value", 2),
   ("water_level", 3)]

/-- `self.thresholds` keys. -/
structure Thresholds where
  pt_low : Int
  pt_high : Int
  ft_low : Int
  turb_high : Int
  level_low : Int
deriving DecidableEq, Repr

/-- The threshold values assigned in `PLCWebController.__init__` (the only
assignment to `self.thresholds` in the repository). -/
def initThresholds : Thresholds :=
  { pt_low := 20, pt_high := 80, ft_low := 10, turb_high := 15, level_low := 20 }

/-- The controller state the read/write operations consult: the
`self.connected` flag, the client session, and the thresholds. -/
structure PLCState where
  connected : Bool
  client : ModbusClient
  thresholds : Thresholds

/-- `dict.get(key, default)` on an association list. -/
def lookupD (l : List (String × Int)) (k : String) (d : Int) : Int :=
  match l.find? (fun p => p.fst == k) with
  | some p => p.snd
  | none => d

/-- `PLCWebController.write_coil` (backend.py lines 116-137).  Returns the
boolean result together with the trace of protocol calls issued. -/
def write_coil (client : ModbusClient) (connected : Bool) (name : String)
    (value : Bool) : Bool × List Event :=
  if connected = false then (false, [])
  else
    match coil_map.find? (fun p => p.fst == name) with
    | none => (false, [])
    | some p => (client.write_coil p.snd value, [Event.writeCoilCall p.snd value])

/-- The loop of `read_coils` lines 153-155: project the raw bit list back
onto point names, keeping only addresses inside the returned range. -/
def projectBits (pts : List (String × Nat)) (bits : List Bool) :
    List (String × Bool) :=
  pts.foldl
    (fun acc p => if p.snd < bits.length then acc ++ [(p.fst, bits.getD p.snd false)] else acc)
    []

/-- The loop of `read_registers` lines 175-177. -/
def projectRegisters (pts : List (String × Nat)) (regs : List Int) :
    List (String × Int) :=
  pts.foldl
    (fun acc p => if p.snd < regs.length then acc ++ [(p.fst, regs.getD p.snd 0)] else acc)
    []

/-- `PLCWebController.read_coils` (backend.py lines 139-159). -/
def read_coils (s : PLCState) (count : Nat) :
    List (String × Bool) × List Event :=
  if s.connected = false then ([], [])
  else
    match s.client.read_coils 0 count with
    | none => ([], [Event.readCoilsCall 0 count])
    | some bits => (projectBits coil_map bits, [Event.readCoilsCall 0 count])

/-- `PLCWebController.read_registers` (backend.py lines 161-181). -/
def read_registers (s : PLCState) : List (String × Int) × List Event :=
  if s.connected = false then ([], [])
  else
    match s.client.read_holding_registers 0 4 with
    | none => ([], [Event.readRegistersCall 0 4])
    | some regs => (projectRegisters register_map regs, [Event.readRegistersCall 0 4])

/-- `PLCWebController.pulse_coil` (backend.py lines 183-189).  The set
write has value `true`; when it succeeds the code sleeps for the dwell,
issues the clear write (discarding its result) and returns `True`;
otherwise it returns `False`. -/
def pulse_coil (client : ModbusClient) (connected : Bool) (name : String)
    (durationMs : Nat) : Bool × List Event :=
  let set := write_coil client connected name true
  if set.fst then
    let clear := write_coil client connected name false
    (true, set.snd ++ [Event.sleep durationMs] ++ clear.snd)
  else (false, set.snd)

/-- `param_map` from `adjust_parameter` (backend.py lines 193-198):
parameter → (increment coil, decrement coil). -/
def param_map : List (String × (String × String)) :=
  [("pressure", ("pt_inc_sim", "pt_dec_sim")),
   ("flow", ("ft_inc_sim", "ft_dec_sim")),
   ("turbidity", ("turb_inc_sim", "turb_dec_sim")),
   ("level", ("level_inc_sim", "level_dec_sim"))]

/-- A loop body repeated `n` times appends the same trace block each
iteration (the client is a response oracle, so every iteration of a
Python `for _ in range(n)` loop produces the same events). -/
def repeatTrace (n : Nat) (t : List Event) : List Event :=
  match n with
  | 0 => []
  | m + 1 => t ++ repeatTrace m t

/-- `PLCWebController.adjust_parameter` (backend.py lines 191-210).
Unknown parameters return `False` before any I/O; otherwise direction
`up` selects the increment coil and every other direction the decrement
coil, and the loop pulses the coil `steps` times, sleeping 100 ms after
each pulse, always returning `True`. -/
def adjust_parameter (client : ModbusClient) (connected : Bool)
    (param direction : String) (steps : Nat := 1) : Bool × List Event :=
  match param_map.find? (fun p => p.fst == param) with
  | none => (false, [])
  | some p =>
    let coil := if direction == "up" then p.snd.fst else p.snd.snd
    (true, repeatTrace steps ((pulse_coil client connected coil 100).snd ++ [Event.sleep 100]))

/-- The result of `get_system_data` (backend.py lines 232-239), minus the
wall-clock `timestamp`. -/
structure SystemData where
  connected : Bool
  coils : List (String × Bool)
  registers : List (String × Int)
  alerts : List String
  system_fault : Bool
deriving DecidableEq, Repr

/-- The alert computation inlined in `get_system_data` (backend.py lines
217-230): sequential appends to `alerts`, each guarded by a threshold
test on `registers.get(name, default)`. -/
def computeAlerts (registers : List (String × Int)) (th : Thresholds) :
    List String :=
  let alerts : List String := []
  let alerts :=
    if lookupD registers "pressure_value" 50 < th.pt_low ∨
       lookupD registers "pressure_value" 50 > th.pt_high
    then alerts ++ ["Pressure Alert"] else alerts
  let alerts :=
    if lookupD registers "flow_value" 25 < th.ft_low
    then alerts ++ ["Flow Alert"] else alerts
  let alerts :=
    if lookupD registers "turbidity_value" 5 > th.turb_high
    then alerts ++ ["Turbidity Alert"] else alerts
  let alerts :=
    if lookupD registers "water_level" 75 < th.level_low
    then alerts ++ ["Low Level Alert"] else alerts
  alerts

/-- `PLCWebController.get_system_data` (backend.py lines 212-242). -/
def get_system_data (s : PLCState) : SystemData × List Event :=
  let coils := read_coils s 24
  let registers := read_registers s
  let alerts := computeAlerts registers.fst s.thresholds
  ({ connected := s.connected
     coils := coils.fst
     registers := registers.fst
     alerts := alerts
     system_fault := decide (alerts.length > 0) },
   coils.snd ++ registers.snd)

/-- `run_scenario` (backend.py lines 356-398).  `plc` is the global
`plc_controller`, which may be `None`.  No modelled operation raises, so
the `except` branch (lines 396-398) is unreachable in the embedding:
`write_coil` and `pulse_coil` swallow client failures internally. -/
def run_scenario (plc : Option PLCState) (scenario : String) :
    Bool × List Event :=
  match plc with
  | none => (false, [])
  | some s =>
    if scenario == "normal_startup" then
      let w := write_coil s.client s.connected "emergency_button" false
      let p := pulse_coil s.client s.connected "start_button" 100
      (true, w.snd ++ [Event.sleep 500] ++ p.snd)
    else if scenario == "low_pressure" then
      (true, repeatTrace 8 ((pulse_coil s.client s.connected "pt_dec_sim" 100).snd ++ [Event.sleep 100]))
    else if scenario == "high_turbidity" then
      (true, repeatTrace 8 ((pulse_coil s.client s.connected "turb_inc_sim" 100).snd ++ [Event.sleep 100]))
    else if scenario == "multiple_faults" then
      (true,
        repeatTrace 8 ((pulse_coil s.client s.connected "pt_dec_sim" 100).snd ++ [Event.sleep 50]) ++
        repeatTrace 6 ((pulse_coil s.client s.connected "ft_dec_sim" 100).snd ++ [Event.sleep 50]) ++
        repeatTrace 10 ((pulse_coil s.client s.connected "turb_inc_sim" 100).snd ++ [Event.sleep 50]))
    else (false, [])

/-- A client on which every exchange fails (error responses). -/
def failClient : ModbusClient :=
  { write_coil := fun _ _ => false
    read_coils := fun _ _ => none
    read_holding_registers := fun _ _ => none }

/-- A client whose set writes succeed but whose clear writes fail. -/
def stuckClient : ModbusClient :=
  { write_coil := fun _ v => v
    read_coils := fun _ _ => none
    read_holding_registers := fun _ _ => none }

/-- A client on which every exchange succeeds; reads return nothing of
interest. -/
def okClient : ModbusClient :=
  { write_coil := fun _ _ => true
    read_coils := fun _ _ => some []
    read_holding_registers := fun _ _ => some [] }

/-- A connected controller whose exchanges all fail. -/
def failState : PLCState :=
  { connected := true, client := failClient, thresholds := initThresholds }

/-- A connected controller whose exchanges all succeed. -/
def okState : PLCState :=
  { connected := true, client := okClient, thresholds := initThresholds }

/-- A client whose reads return full, in-range payloads. -/
def richClient : ModbusClient :=
  { write_coil := fun _ _ => true
    read_coils := fun _ _ => some (List.replicate 24 false)
    read_holding_registers := fun _ _ => some [50, 25, 5, 75] }

/-- A connected controller with full read payloads. -/
def richState : PLCState :=
  { connected := true, client := richClient, thresholds := initThresholds }

/-- A controller whose `connected` flag is down. -/
def offState : PLCState :=
  { connected := false, client := okClient, thresholds := initThresholds }

/-! ### Helper lemmas -/

theorem repeatTrace_count (n : Nat) (t : List Event) (e : Event) :
    (repeatTrace n t).count e = n * t.count e := by
  induction n with
  | zero => simp [repeatTrace]
  | succ m ih =>
    simp only [repeatTrace, List.count_append, ih, Nat.succ_mul]
    omega

theorem mem_repeatTrace {e : Event} {n : Nat} {t : List Event}
    (h : e ∈ repeatTrace n t) : e ∈ t := by
  induction n with
  | zero => simp [repeatTrace] at h
  | succ m ih =>
    rw [repeatTrace, List.mem_append] at h
    rcases h with h | h
    · exact h
    · exact ih h

theorem write_coil_resolved (client : ModbusClient) (name : String) (addr : Nat)
    (v : Bool) (hw : coil_map.find? (fun p => p.fst == name) = some (name, addr)) :
    write_coil client true name v =
      (client.write_coil addr v, [Event.writeCoilCall addr v]) := by
  simp [write_coil, hw]

theorem pulse_coil_resolved (client : ModbusClient) (name : String) (addr : Nat)
    (d : Nat) (hw : coil_map.find? (fun p => p.fst == name) = some (name, addr)) :
    pulse_coil client true name d =
      (client.write_coil addr true,
       if client.write_coil addr true then
         [Event.writeCoilCall addr true, Event.sleep d, Event.writeCoilCall addr false]
       else [Event.writeCoilCall addr true]) := by
  simp only [pulse_coil, write_coil_resolved client name addr true hw,
    write_coil_resolved client name addr false hw]
  cases h : client.write_coil addr true <;> simp [h]

theorem write_coil_trace_events (client : ModbusClient) (connected : Bool)
    (name : String) (v : Bool) (e : Event)
    (he : e ∈ (write_coil client connected name v).snd) :
    ∃ a, e = Event.writeCoilCall a v := by
  unfold write_coil at he
  by_cases hc : connected = false
  · rw [if_pos hc] at he; simp at he
  · rw [if_neg hc] at he
    cases hf : coil_map.find? (fun p => p.fst == name) with
    | none => rw [hf] at he; simp at he
    | some p =>
      rw [hf] at he
      simp only [List.mem_singleton] at he
      exact ⟨p.snd, he⟩

theorem proj_fold_mem {β : Type} (f : (String × Nat) → β)
    (cond : (String × Nat) → Prop) [DecidablePred cond]
    (pts : List (String × Nat)) (acc : List (String × β)) (x : String × β)
    (hx : x ∈ pts.foldl (fun a p => if cond p then a ++ [(p.fst, f p)] else a) acc) :
    x ∈ acc ∨ x.fst ∈ pts.map Prod.fst := by
  induction pts generalizing acc with
  | nil => exact Or.inl hx
  | cons p ps ih =>
    simp only [List.foldl_cons] at hx
    rcases ih _ hx with h | h
    · by_cases hcond : cond p
      · rw [if_pos hcond] at h
        rcases List.mem_append.mp h with h | h
        · exact Or.inl h
        · right
          simp only [List.mem_singleton] at h
          simp [h]
      · rw [if_neg hcond] at h
        exact Or.inl h
    · right
      simp [h]

/-- Claim C1: for every map of analog readings and configured thresholds,
alert evaluation produces the alert list in the fixed order pressure,
flow, turbidity, level — "Pressure Alert" iff pressure is outside
[pt_low, pt_high], "Flow Alert" iff flow is below ft_low, "Turbidity
Alert" iff turbidity is above turb_high, "Low Level Alert" iff level is
below level_low — with missing readings defaulting to 50, 25, 5, 75, and
`get_system_data` uses exactly this evaluation and sets the fault flag
iff the alert list is non-empty. -/
theorem C1_alert_evaluation :
    (∀ (regs : List (String × Int)) (th : Thresholds),
      computeAlerts regs th =
        (if lookupD regs "pressure_value" 50 < th.pt_low ∨
            lookupD regs "pressure_value" 50 > th.pt_high
         then ["Pressure Alert"] else []) ++
        (if lookupD regs "flow_value" 25 < th.ft_low then ["Flow Alert"] else []) ++
        (if lookupD regs "turbidity_value" 5 > th.turb_high then ["Turbidity Alert"] else []) ++
        (if lookupD regs "water_level" 75 < th.level_low then ["Low Level Alert"] else [])) ∧
    (∀ s : PLCState,
      (get_system_data s).fst.alerts = computeAlerts (read_registers s).fst s.thresholds ∧
      ((get_system_data s).fst.system_fault = true ↔ (get_system_data s).fst.alerts ≠ [])) := by
  constructor
  · intro regs th
    simp only [computeAlerts]
    split <;> split <;> split <;> split <;> simp
  · intro s
    refine ⟨rfl, ?_⟩
    simp only [get_system_data, decide_eq_true_eq]
    exact List.length_pos

/-- Claim C2 counterexample: with the stored connected flag up and both
exchanges failing, `get_system_data` returns empty maps and empty alerts
but `connected = true`, not the `connected = false` the claim asserts. -/
theorem C2_counterexample :
    (get_system_data failState).fst.connected = true ∧
    (get_system_data failState).fst.coils = [] ∧
    (get_system_data failState).fst.registers = [] ∧
    (get_system_data failState).fst.alerts = [] :=
  ⟨rfl, rfl, rfl, rfl⟩

/-- Claim C2 (amended): the snapshot's `connected` field always equals
the stored connected flag (true while exchanges are being attempted),
never forced to `false` on a failed exchange; a failed discrete exchange
yields an empty discrete value map; a failed analog exchange yields an
empty analog value map, and under the constructor's thresholds the
alerts evaluated on the defaults are empty with no fault — so when both
exchanges fail the snapshot has empty maps, empty alerts and
`fault = false` but keeps `connected = true`. -/
theorem C2_failed_exchange_snapshot (s : PLCState) :
    (get_system_data s).fst.connected = s.connected ∧
    (s.client.read_coils 0 24 = none → (get_system_data s).fst.coils = []) ∧
    (s.client.read_holding_registers 0 4 = none →
      (get_system_data s).fst.registers = [] ∧
      (s.thresholds = initThresholds →
        (get_system_data s).fst.alerts = [] ∧
        (get_system_data s).fst.system_fault = false)) := by
  refine ⟨rfl, ?_, ?_⟩
  · intro hc
    show (read_coils s 24).fst = []
    unfold read_coils
    cases h : s.connected <;> simp [hc]
  · intro hr
    have hregs : (read_registers s).fst = [] := by
      unfold read_registers
      cases h : s.connected <;> simp [hr]
    refine ⟨hregs, fun hth => ⟨?_, ?_⟩⟩
    · show computeAlerts (read_registers s).fst s.thresholds = []
      rw [hregs, hth]
      decide
    · show decide ((computeAlerts (read_registers s).fst s.thresholds).length > 0) = false
      rw [hregs, hth]
      decide

/-- Witness for C2's amended theorem at a concrete failing state. -/
theorem C2_failed_exchange_snapshot_witness :
    (get_system_data failState).fst.connected = failState.connected ∧
    (get_system_data failState).fst.coils = [] ∧
    (get_system_data failState).fst.registers = [] ∧
    (get_system_data failState).fst.alerts = [] ∧
    (get_system_data failState).fst.system_fault = false :=
  ⟨(C2_failed_exchange_snapshot failState).1,
   (C2_failed_exchange_snapshot failState).2.1 rfl,
   ((C2_failed_exchange_snapshot failState).2.2 rfl).1,
   (((C2_failed_exchange_snapshot failState).2.2 rfl).2 rfl).1,
   (((C2_failed_exchange_snapshot failState).2.2 rfl).2 rfl).2⟩

/-- Claim C3 counterexample: on a client whose set write succeeds and
whose clear write fails, `pulse_coil` still reports success, refuting
"returns success if and only if both writes succeed". -/
theorem C3_counterexample :
    (write_coil stuckClient true "pump" true).fst = true ∧
    (write_coil stuckClient true "pump" false).fst = false ∧
    (pulse_coil stuckClient true "pump" 100).fst = true :=
  ⟨rfl, rfl, rfl⟩

/-- Claim C3 (amended): `pulse_coil` returns success iff the set write
succeeds; when the set succeeds the clear write is issued after the dwell
but its result is discarded, so a failed clear leaves the point asserted
while the call still reports success. -/
theorem C3_pulse_result (client : ModbusClient) (connected : Bool)
    (name : String) (durationMs : Nat) :
    (pulse_coil client connected name durationMs).fst =
      (write_coil client connected name true).fst ∧
    ((write_coil client connected name true).fst = true →
      (pulse_coil client connected name durationMs).snd =
        (write_coil client connected name true).snd ++ [Event.sleep durationMs] ++
        (write_coil client connected name false).snd) := by
  unfold pulse_coil
  cases h : (write_coil client connected name true).fst <;> simp [h]

/-- Witness for C3's amended theorem on a clear-failing client. -/
theorem C3_pulse_result_witness :
    (write_coil stuckClient true "uv_reactor" true).fst = true ∧
    (pulse_coil stuckClient true "uv_reactor" 100).snd =
      (write_coil stuckClient true "uv_reactor" true).snd ++ [Event.sleep 100] ++
      (write_coil stuckClient true "uv_reactor" false).snd :=
  ⟨rfl, (C3_pulse_result stuckClient true "uv_reactor" 100).2 rfl⟩

/-- Claim C5 counterexample: `adjust_parameter` does not validate the
direction — for direction "sideways" (outside {up, down}) on a known
parameter it pulses the decrement coil (address 17) and reports success,
instead of failing with no I/O. -/
theorem C5_counterexample :
    (adjust_parameter okClient true "pressure" "sideways" 1).fst = true ∧
    (adjust_parameter okClient true "pressure" "sideways" 1).snd =
      [Event.writeCoilCall 17 true, Event.sleep 100,
       Event.writeCoilCall 17 false, Event.sleep 100] :=
  ⟨rfl, rfl⟩

/-- Claim C5 (amended): `adjust_parameter` fails with no I/O exactly for
parameters outside {pressure, flow, turbidity, level}; the direction is
not validated — "up" selects the increment coil and every other string
the decrement coil; for a known parameter it reports success and issues
exactly `steps` pulses of the selected coil, each followed by a 100 ms
delay; in particular `adjust_parameter client true "pressure" "up" steps`
issues exactly `steps` set writes of the pressure-increment address 16. -/
theorem C5_adjust_parameter_behavior (client : ModbusClient)
    (connected : Bool) (param direction : String) (steps : Nat) :
    (param_map.find? (fun p => p.fst == param) = none →
      adjust_parameter client connected param direction steps = (false, [])) ∧
    (∀ q, param_map.find? (fun p => p.fst == param) = some q →
      adjust_parameter client connected param direction steps =
        (true, repeatTrace steps
          ((pulse_coil client connected
              (if direction == "up" then q.snd.fst else q.snd.snd) 100).snd ++
           [Event.sleep 100]))) ∧
    (adjust_parameter client true "pressure" "up" steps).snd.count
      (Event.writeCoilCall 16 true) = steps := by
  refine ⟨?_, ?_, ?_⟩
  · intro h
    unfold adjust_parameter
    rw [h]
  · intro q h
    unfold adjust_parameter
    rw [h]
  · have hfind : coil_map.find? (fun p => p.fst == "pt_inc_sim") =
        some ("pt_inc_sim", 16) := rfl
    show (repeatTrace steps
        ((pulse_coil client true "pt_inc_sim" 100).snd ++ [Event.sleep 100])).count
      (Event.writeCoilCall 16 true) = steps
    rw [repeatTrace_count, pulse_coil_resolved client "pt_inc_sim" 16 100 hfind]
    cases h : client.write_coil 16 true <;> simp [h]

/-- Witness for C5's amended theorem at concrete inputs. -/
theorem C5_adjust_parameter_behavior_witness :
    adjust_parameter okClient true "bogus" "up" 1 = (false, []) ∧
    adjust_parameter okClient true "pressure" "up" 3 =
      (true, repeatTrace 3
        ((pulse_coil okClient true "pt_inc_sim" 100).snd ++ [Event.sleep 100])) ∧
    (adjust_parameter okClient true "pressure" "up" 3).snd.count
      (Event.writeCoilCall 16 true) = 3 :=
  ⟨(C5_adjust_parameter_behavior okClient true "bogus" "up" 1).1 rfl,
   (C5_adjust_parameter_behavior okClient true "pressure" "up" 3).2.1
     ("pressure", ("pt_inc_sim", "pt_dec_sim")) rfl,
   (C5_adjust_parameter_behavior okClient true "pressure" "up" 3).2.2⟩

/-- Claim C6: `run_scenario "low_pressure"` issues exactly 8 pulses of
the pressure-decrement point (address 17) in strict sequence, 100 ms
apart, with no writes to any other address, and any scenario name
outside the four built-ins returns failure with no pulse issued. -/
theorem C6_low_pressure_scenario :
    (∀ s : PLCState,
      run_scenario (some s) "low_pressure" =
        (true, repeatTrace 8
          ((pulse_coil s.client s.connected "pt_dec_sim" 100).snd ++ [Event.sleep 100])) ∧
      (s.connected = true →
        (run_scenario (some s) "low_pressure").snd.count (Event.writeCoilCall 17 true) = 8 ∧
        (∀ a v, Event.writeCoilCall a v ∈ (run_scenario (some s) "low_pressure").snd →
          a = 17))) ∧
    (∀ (plc : Option PLCState) (scenario : String),
      scenario ∉ ["normal_startup", "low_pressure", "high_turbidity", "multiple_faults"] →
      run_scenario plc scenario = (false, [])) := by
  have hfind : coil_map.find? (fun p => p.fst == "pt_dec_sim") =
      some ("pt_dec_sim", 17) := rfl
  constructor
  · intro s
    refine ⟨rfl, fun hc => ?_⟩
    have htr : (run_scenario (some s) "low_pressure").snd =
        repeatTrace 8 ((pulse_coil s.client true "pt_dec_sim" 100).snd ++ [Event.sleep 100]) := by
      show repeatTrace 8
          ((pulse_coil s.client s.connected "pt_dec_sim" 100).snd ++ [Event.sleep 100]) = _
      rw [hc]
    constructor
    · rw [htr, repeatTrace_count, pulse_coil_resolved s.client "pt_dec_sim" 17 100 hfind]
      cases h : s.client.write_coil 17 true <;> simp [h]
    · intro a v hmem
      rw [htr] at hmem
      have h2 := mem_repeatTrace hmem
      rw [pulse_coil_resolved s.client "pt_dec_sim" 17 100 hfind] at h2
      cases h : s.client.write_coil 17 true <;> rw [h] at h2 <;> simp at h2 <;>
        first
          | exact h2.1
          | (rcases h2 with ⟨ha, hv⟩ | ⟨ha, hv⟩ <;> exact ha)
  · intro plc scenario h
    simp only [List.mem_cons, List.not_mem_nil, or_false] at h
    push_neg at h
    obtain ⟨h1, h2, h3, h4⟩ := h
    cases plc with
    | none => rfl
    | some s => simp [run_scenario, h1, h2, h3, h4]

/-- Witness for C6 at a concrete connected state and scenario name. -/
theorem C6_low_pressure_scenario_witness :
    (run_scenario (some okState) "low_pressure").snd.count
      (Event.writeCoilCall 17 true) = 8 ∧
    run_scenario (some okState) "bogus" = (false, []) :=
  ⟨((C6_low_pressure_scenario.1 okState).2 rfl).1,
   C6_low_pressure_scenario.2 (some okState) "bogus" (by decide)⟩

/-- Claim C8: every key of the discrete and analog value maps of a
produced snapshot names a point of the registry, and every snapshot
produced while the connected flag is false has empty value maps, empty
alerts and no fault. -/
theorem C8_snapshot_invariant :
    (∀ (s : PLCState) (k : String),
      k ∈ (read_coils s 24).fst.map Prod.fst → k ∈ coil_map.map Prod.fst) ∧
    (∀ (s : PLCState) (k : String),
      k ∈ (read_registers s).fst.map Prod.fst → k ∈ register_map.map Prod.fst) ∧
    (∀ s : PLCState, s.connected = false → s.thresholds = initThresholds →
      (get_system_data s).fst =
        { connected := false, coils := [], registers := [], alerts := [],
          system_fault := false }) := by
  refine ⟨?_, ?_, ?_⟩
  · intro s k hk
    unfold read_coils at hk
    by_cases hc : s.connected = false
    · rw [if_pos hc] at hk; simp at hk
    · rw [if_neg hc] at hk
      cases hr : s.client.read_coils 0 24 with
      | none => rw [hr] at hk; simp at hk
      | some bits =>
        rw [hr] at hk
        simp only [List.mem_map] at hk
        obtain ⟨x, hx, hxk⟩ := hk
        unfold projectBits at hx
        rcases proj_fold_mem (fun p => bits.getD p.snd false)
            (fun p => p.snd < bits.length) coil_map [] x hx with h | h
        · simp at h
        · rw [← hxk]; exact h
  · intro s k hk
    unfold read_registers at hk
    by_cases hc : s.connected = false
    · rw [if_pos hc] at hk; simp at hk
    · rw [if_neg hc] at hk
      cases hr : s.client.read_holding_registers 0 4 with
      | none => rw [hr] at hk; simp at hk
      | some regs =>
        rw [hr] at hk
        simp only [List.mem_map] at hk
        obtain ⟨x, hx, hxk⟩ := hk
        unfold projectRegisters at hx
        rcases proj_fold_mem (fun p => regs.getD p.snd 0)
            (fun p => p.snd < regs.length) register_map [] x hx with h | h
        · simp at h
        · rw [← hxk]; exact h
  · intro s hc hth
    have h1 : read_coils s 24 = ([], []) := by unfold read_coils; simp [hc]
    have h2 : read_registers s = ([], []) := by unfold read_registers; simp [hc]
    show ({ connected := s.connected, coils := (read_coils s 24).fst,
            registers := (read_registers s).fst,
            alerts := computeAlerts (read_registers s).fst s.thresholds,
            system_fault :=
              decide ((computeAlerts (read_registers s).fst s.thresholds).length > 0) } :
          SystemData) = _
    rw [h1, h2, hc, hth]
    decide

/-- Witness for C8 at concrete connected and disconnected states. -/
theorem C8_snapshot_invariant_witness :
    "pump" ∈ coil_map.map Prod.fst ∧
    "pressure_value" ∈ register_map.map Prod.fst ∧
    (get_system_data offState).fst =
      { connected := false, coils := [], registers := [], alerts := [],
        system_fault := false } :=
  ⟨C8_snapshot_invariant.1 richState "pump" (by decide),
   C8_snapshot_invariant.2.1 richState "pressure_value" (by decide),
   C8_snapshot_invariant.2.2 offState rfl rfl⟩

/-- Claim C9: while the connected flag is false, `write_coil` returns
failure and `read_coils` / `read_registers` return empty maps, each
immediately and with an empty trace — no protocol I/O is attempted. -/
theorem C9_disconnected_no_io (s : PLCState) (h : s.connected = false)
    (name : String) (value : Bool) (count : Nat) :
    write_coil s.client s.connected name value = (false, []) ∧
    read_coils s count = ([], []) ∧
    read_registers s = ([], []) := by
  refine ⟨?_, ?_, ?_⟩
  · unfold write_coil; simp [h]
  · unfold read_coils; simp [h]
  · unfold read_registers; simp [h]

/-- Witness for C9 at a concrete disconnected state. -/
theorem C9_disconnected_no_io_witness :
    write_coil offState.client offState.connected "pump" true = (false, []) ∧
    read_coils offState 24 = ([], []) ∧
    read_registers offState = ([], []) :=
  C9_disconnected_no_io offState rfl "pump" true 24

/-- Claim C10: when the set write of a pulse fails, `pulse_coil` returns
failure with only the set write's trace — in particular no clear write
(a write of `false`) is ever issued on that path. -/
theorem C10_failed_set_atomic (client : ModbusClient) (connected : Bool)
    (name : String) (durationMs : Nat)
    (h : (write_coil client connected name true).fst = false) :
    pulse_coil client connected name durationMs =
      (false, (write_coil client connected name true).snd) ∧
    (∀ a : Nat,
      Event.writeCoilCall a false ∉ (pulse_coil client connected name durationMs).snd) := by
  have h1 : pulse_coil client connected name durationMs =
      (false, (write_coil client connected name true).snd) := by
    simp [pulse_coil, h]
  refine ⟨h1, ?_⟩
  intro a hmem
  rw [h1] at hmem
  obtain ⟨b, hb⟩ := write_coil_trace_events client connected name true _ hmem
  simp at hb

/-- Witness for C10 on a client whose set write fails. -/
theorem C10_failed_set_atomic_witness :
    pulse_coil failClient true "pump" 100 =
      (false, (write_coil failClient true "pump" true).snd) ∧
    Event.writeCoilCall 0 false ∉ (pulse_coil failClient true "pump" 100).snd :=
  ⟨(C10_failed_set_atomic failClient true "pump" 100 rfl).1,
   (C10_failed_set_atomic failClient true "pump" 100 rfl).2 0⟩

end WaterSkid
